import Mathlib

/-!
Shallow embedding of the Enterprise-BRD repository core: the pydantic record
models of src/models/brd_models.py, the SQLite persistence layer of
src/utils/database.py, the Excel exporter of src/utils/excel_export.py and
the Ollama suggestion gateway of src/utils/llm_integration.py.

Serialization is modelled at the JSON-value level: json.dumps/json.loads are
the identity on parsed values, and a stored column is either a parsed value
or one of the failure shapes (empty/NULL text, text json.loads rejects).
-/

namespace BRD

/-- A scalar JSON value as produced by model_dump: every field of every
record model in brd_models.py is a string, a float, a boolean or None. -/
inductive JVal where
  | s (v : String)
  | num (v : Rat)
  | b (v : Bool)
  | null
deriving DecidableEq

/-- A parsed JSON object, i.e. a Python dict after json.loads. Keys of a
parsed dict are unique, so association-list lookup by first match agrees
with dict access. -/
abbrev JObj := List (String × JVal)

/-- Dict lookup: the value stored under key k, if present. -/
def getF (o : JObj) (k : String) : Option JVal :=
  (o.find? (fun p => p.1 = k)).map (fun p => p.2)

/-- Check for a pydantic str field carrying min_length lo and max_length hi
(pydantic counts characters, as Python len does). -/
def strOk (lo hi : Nat) : JVal → Bool
  | .s v => decide (lo ≤ v.length) && decide (v.length ≤ hi)
  | _ => false

/-- Check for a pydantic str field with no length constraints. -/
def strAny : JVal → Bool
  | .s _ => true
  | _ => false

/-- Check for a pydantic Optional[str] field: a string or None. -/
def optStrOk : JVal → Bool
  | .s _ => true
  | .null => true
  | _ => false

/-- Check for a pydantic float field carrying ge lo and le hi. -/
def numOk (lo hi : Rat) : JVal → Bool
  | .num q => decide (lo ≤ q) && decide (q ≤ hi)
  | _ => false

/-- Check for a pydantic bool field. -/
def boolOk : JVal → Bool
  | .b _ => true
  | _ => false

/-- Validation errors contributed by a required field, written
Field(..., constraints) in the source: missing or failing its constraint
check, the field name is reported. pydantic collects the errors of every
field rather than stopping at the first. -/
def reqErr (o : JObj) (k : String) (ck : JVal → Bool) : List String :=
  match getF o k with
  | none => [k]
  | some v => if ck v then [] else [k]

/-- Validation errors contributed by a field with a default: an absent field
takes the default, a present value must pass the constraint check. -/
def optErr (o : JObj) (k : String) (ck : JVal → Bool) : List String :=
  match getF o k with
  | none => []
  | some v => if ck v then [] else [k]

/-- Read a string field, falling back to the declared default. -/
def readStr (o : JObj) (k : String) (d : String) : String :=
  match getF o k with
  | some (.s v) => v
  | _ => d

/-- Read an Optional[str] field whose default is None. -/
def readOptStr (o : JObj) (k : String) : Option String :=
  match getF o k with
  | some (.s v) => some v
  | _ => none

/-- Read a float field, falling back to the declared default. -/
def readNum (o : JObj) (k : String) (d : Rat) : Rat :=
  match getF o k with
  | some (.num v) => v
  | _ => d

/-- Read a bool field, falling back to the declared default. -/
def readBool (o : JObj) (k : String) (d : Bool) : Bool :=
  match getF o k with
  | some (.b v) => v
  | _ => d

/-- Serialize an Optional[str] value: None dumps as JSON null. -/
def jOptStr : Option String → JVal
  | some v => .s v
  | none => .null

/-! ### OverviewModel (brd_models.py lines 10-18) -/

structure OverviewModel where
  project_name : String
  project_description : String
  business_goal : String
  document_version : String
  prepared_by : String
  approved_by : String
  target_release_date : Option String
deriving DecidableEq

namespace OverviewModel

/-- model_dump of an OverviewModel: all fields in declaration order. -/
def toJson (m : OverviewModel) : JObj :=
  [("project_name", .s m.project_name),
   ("project_description", .s m.project_description),
   ("business_goal", .s m.business_goal),
   ("document_version", .s m.document_version),
   ("prepared_by", .s m.prepared_by),
   ("approved_by", .s m.approved_by),
   ("target_release_date", jOptStr m.target_release_date)]

/-- The full list of field names violated by an input dict, in field
declaration order: exactly the errors pydantic collects. -/
def errorsOf (o : JObj) : List String :=
  reqErr o "project_name" (strOk 1 255) ++
  reqErr o "project_description" (strOk 10 2000) ++
  reqErr o "business_goal" (strOk 10 2000) ++
  optErr o "document_version" strAny ++
  optErr o "prepared_by" (strOk 0 255) ++
  optErr o "approved_by" (strOk 0 255) ++
  optErr o "target_release_date" optStrOk

/-- OverviewModel(**o): construction validates every field and either
returns the record or raises a ValidationError listing all violations. -/
def ofJson (o : JObj) : Except (List String) OverviewModel :=
  if errorsOf o = [] then
    .ok ⟨readStr o "project_name" "", readStr o "project_description" "",
         readStr o "business_goal" "", readStr o "document_version" "1.0",
         readStr o "prepared_by" "", readStr o "approved_by" "",
         readOptStr o "target_release_date"⟩
  else .error (errorsOf o)

/-- The record satisfies the field constraints of its kind: constructing it
from its own dump succeeds. -/
def Valid (m : OverviewModel) : Prop := errorsOf (toJson m) = []

instance (m : OverviewModel) : Decidable m.Valid := by
  unfold Valid; infer_instance

end OverviewModel

/-! ### UISpecificationModel (brd_models.py lines 35-43) -/

structure UISpecificationModel where
  requirement_id : String
  feature_module : String
  screen_component : String
  requirement_description : String
  validation_rule : String
  business_rule : String
  master_detail : String
  priority : String
deriving DecidableEq

namespace UISpecificationModel

def toJson (m : UISpecificationModel) : JObj :=
  [("requirement_id", .s m.requirement_id),
   ("feature_module", .s m.feature_module),
   ("screen_component", .s m.screen_component),
   ("requirement_description", .s m.requirement_description),
   ("validation_rule", .s m.validation_rule),
   ("business_rule", .s m.business_rule),
   ("master_detail", .s m.master_detail),
   ("priority", .s m.priority)]

def errorsOf (o : JObj) : List String :=
  optErr o "requirement_id" (strOk 0 50) ++
  optErr o "feature_module" (strOk 0 255) ++
  reqErr o "screen_component" (strOk 1 255) ++
  reqErr o "requirement_description" (strOk 10 2000) ++
  optErr o "validation_rule" (strOk 0 1000) ++
  optErr o "business_rule" (strOk 0 1000) ++
  optErr o "master_detail" strAny ++
  optErr o "priority" strAny

def ofJson (o : JObj) : Except (List String) UISpecificationModel :=
  if errorsOf o = [] then
    .ok ⟨readStr o "requirement_id" "", readStr o "feature_module" "",
         readStr o "screen_component" "", readStr o "requirement_description" "",
         readStr o "validation_rule" "", readStr o "business_rule" "",
         readStr o "master_detail" "N/A", readStr o "priority" "Should"⟩
  else .error (errorsOf o)

def Valid (m : UISpecificationModel) : Prop := errorsOf (toJson m) = []

instance (m : UISpecificationModel) : Decidable m.Valid := by
  unfold Valid; infer_instance

end UISpecificationModel

/-! ### APISpecificationModel (brd_models.py lines 60-69)

Note the method field is a required plain str with no enum constraint, and
request_payload / response_payload carry empty-string defaults: they are not
required. -/

structure APISpecificationModel where
  api_id : String
  api_name : String
  method : String
  endpoint : String
  request_payload : String
  response_payload : String
  business_rule : String
  api_type : String
deriving DecidableEq

namespace APISpecificationModel

def toJson (m : APISpecificationModel) : JObj :=
  [("api_id", .s m.api_id),
   ("api_name", .s m.api_name),
   ("method", .s m.method),
   ("endpoint", .s m.endpoint),
   ("request_payload", .s m.request_payload),
   ("response_payload", .s m.response_payload),
   ("business_rule", .s m.business_rule),
   ("api_type", .s m.api_type)]

def errorsOf (o : JObj) : List String :=
  reqErr o "api_id" (strOk 1 50) ++
  reqErr o "api_name" (strOk 1 255) ++
  reqErr o "method" strAny ++
  reqErr o "endpoint" (strOk 1 255) ++
  optErr o "request_payload" (strOk 0 2000) ++
  optErr o "response_payload" (strOk 0 2000) ++
  optErr o "business_rule" (strOk 0 1000) ++
  optErr o "api_type" strAny

def ofJson (o : JObj) : Except (List String) APISpecificationModel :=
  if errorsOf o = [] then
    .ok ⟨readStr o "api_id" "", readStr o "api_name" "",
         readStr o "method" "", readStr o "endpoint" "",
         readStr o "request_payload" "", readStr o "response_payload" "",
         readStr o "business_rule" "", readStr o "api_type" "Internal"⟩
  else .error (errorsOf o)

def Valid (m : APISpecificationModel) : Prop := errorsOf (toJson m) = []

instance (m : APISpecificationModel) : Decidable m.Valid := by
  unfold Valid; infer_instance

end APISpecificationModel

/-! ### LLMPromptModel (brd_models.py lines 86-94)

The temperature field carries ge 0.0 and le 2.0; the model_name field is a
plain str with a default and no membership constraint. -/

structure LLMPromptModel where
  prompt_id : String
  use_case : String
  prompt_template : String
  input_variables : String
  expected_output : String
  model_name : String
  temperature : Rat
deriving DecidableEq

namespace LLMPromptModel

def toJson (m : LLMPromptModel) : JObj :=
  [("prompt_id", .s m.prompt_id),
   ("use_case", .s m.use_case),
   ("prompt_template", .s m.prompt_template),
   ("input_variables", .s m.input_variables),
   ("expected_output", .s m.expected_output),
   ("model_name", .s m.model_name),
   ("temperature", .num m.temperature)]

def errorsOf (o : JObj) : List String :=
  reqErr o "prompt_id" (strOk 1 50) ++
  reqErr o "use_case" (strOk 1 255) ++
  reqErr o "prompt_template" (strOk 10 5000) ++
  optErr o "input_variables" (strOk 0 1000) ++
  optErr o "expected_output" (strOk 0 1000) ++
  optErr o "model_name" strAny ++
  optErr o "temperature" (numOk 0 2)

def ofJson (o : JObj) : Except (List String) LLMPromptModel :=
  if errorsOf o = [] then
    .ok ⟨readStr o "prompt_id" "", readStr o "use_case" "",
         readStr o "prompt_template" "", readStr o "input_variables" "",
         readStr o "expected_output" "", readStr o "model_name" "llama3.2",
         readNum o "temperature" (7 / 10)⟩
  else .error (errorsOf o)

def Valid (m : LLMPromptModel) : Prop := errorsOf (toJson m) = []

instance (m : LLMPromptModel) : Decidable m.Valid := by
  unfold Valid; infer_instance

end LLMPromptModel

/-! ### DatabaseSchemaModel (brd_models.py lines 113-119) -/

structure DatabaseSchemaModel where
  table_name : String
  field_name : String
  data_type : String
  constraints : String
  relationship : String
  description : String
deriving DecidableEq

namespace DatabaseSchemaModel

def toJson (m : DatabaseSchemaModel) : JObj :=
  [("table_name", .s m.table_name),
   ("field_name", .s m.field_name),
   ("data_type", .s m.data_type),
   ("constraints", .s m.constraints),
   ("relationship", .s m.relationship),
   ("description", .s m.description)]

def errorsOf (o : JObj) : List String :=
  reqErr o "table_name" (strOk 1 255) ++
  reqErr o "field_name" (strOk 1 255) ++
  reqErr o "data_type" (strOk 1 100) ++
  optErr o "constraints" (strOk 0 500) ++
  optErr o "relationship" strAny ++
  optErr o "description" (strOk 0 1000)

def ofJson (o : JObj) : Except (List String) DatabaseSchemaModel :=
  if errorsOf o = [] then
    .ok ⟨readStr o "table_name" "", readStr o "field_name" "",
         readStr o "data_type" "", readStr o "constraints" "",
         readStr o "relationship" "N/A", readStr o "description" ""⟩
  else .error (errorsOf o)

def Valid (m : DatabaseSchemaModel) : Prop := errorsOf (toJson m) = []

instance (m : DatabaseSchemaModel) : Decidable m.Valid := by
  unfold Valid; infer_instance

end DatabaseSchemaModel

/-! ### TechStackModel (brd_models.py lines 137-142) -/

structure TechStackModel where
  category : String
  technology_tool : String
  version : String
  rationale : String
  repository_url : String
deriving DecidableEq

namespace TechStackModel

def toJson (m : TechStackModel) : JObj :=
  [("category", .s m.category),
   ("technology_tool", .s m.technology_tool),
   ("version", .s m.version),
   ("rationale", .s m.rationale),
   ("repository_url", .s m.repository_url)]

def errorsOf (o : JObj) : List String :=
  reqErr o "category" (strOk 1 255) ++
  reqErr o "technology_tool" (strOk 1 255) ++
  optErr o "version" (strOk 0 100) ++
  optErr o "rationale" (strOk 0 1000) ++
  optErr o "repository_url" (strOk 0 500)

def ofJson (o : JObj) : Except (List String) TechStackModel :=
  if errorsOf o = [] then
    .ok ⟨readStr o "category" "", readStr o "technology_tool" "",
         readStr o "version" "", readStr o "rationale" "",
         readStr o "repository_url" ""⟩
  else .error (errorsOf o)

def Valid (m : TechStackModel) : Prop := errorsOf (toJson m) = []

instance (m : TechStackModel) : Decidable m.Valid := by
  unfold Valid; infer_instance

end TechStackModel

/-! ### TraceabilityModel (brd_models.py lines 159-165) -/

structure TraceabilityModel where
  business_requirement_id : String
  business_requirement : String
  linked_ui_id : String
  linked_api_id : String
  linked_llm_id : String
  status : String
deriving DecidableEq

namespace TraceabilityModel

def toJson (m : TraceabilityModel) : JObj :=
  [("business_requirement_id", .s m.business_requirement_id),
   ("business_requirement", .s m.business_requirement),
   ("linked_ui_id", .s m.linked_ui_id),
   ("linked_api_id", .s m.linked_api_id),
   ("linked_llm_id", .s m.linked_llm_id),
   ("status", .s m.status)]

def errorsOf (o : JObj) : List String :=
  reqErr o "business_requirement_id" (strOk 1 50) ++
  reqErr o "business_requirement" (strOk 10 2000) ++
  optErr o "linked_ui_id" (strOk 0 500) ++
  optErr o "linked_api_id" (strOk 0 500) ++
  optErr o "linked_llm_id" (strOk 0 500) ++
  optErr o "status" strAny

def ofJson (o : JObj) : Except (List String) TraceabilityModel :=
  if errorsOf o = [] then
    .ok ⟨readStr o "business_requirement_id" "", readStr o "business_requirement" "",
         readStr o "linked_ui_id" "", readStr o "linked_api_id" "",
         readStr o "linked_llm_id" "", readStr o "status" "Proposed"⟩
  else .error (errorsOf o)

def Valid (m : TraceabilityModel) : Prop := errorsOf (toJson m) = []

instance (m : TraceabilityModel) : Decidable m.Valid := by
  unfold Valid; infer_instance

end TraceabilityModel

/-! ### AgentArchitectureModel (brd_models.py lines 168-177) -/

structure AgentArchitectureModel where
  agent_id : String
  agent_name : String
  agent_type : String
  primary_role : String
  capabilities : String
  dependencies : String
  communication_protocol : String
  description : String
deriving DecidableEq

namespace AgentArchitectureModel

def toJson (m : AgentArchitectureModel) : JObj :=
  [("agent_id", .s m.agent_id),
   ("agent_name", .s m.agent_name),
   ("agent_type", .s m.agent_type),
   ("primary_role", .s m.primary_role),
   ("capabilities", .s m.capabilities),
   ("dependencies", .s m.dependencies),
   ("communication_protocol", .s m.communication_protocol),
   ("description", .s m.description)]

def errorsOf (o : JObj) : List String :=
  reqErr o "agent_id" (strOk 1 50) ++
  reqErr o "agent_name" (strOk 1 255) ++
  reqErr o "agent_type" strAny ++
  reqErr o "primary_role" (strOk 1 255) ++
  optErr o "capabilities" (strOk 0 2000) ++
  optErr o "dependencies" (strOk 0 500) ++
  optErr o "communication_protocol" strAny ++
  optErr o "description" (strOk 0 1000)

def ofJson (o : JObj) : Except (List String) AgentArchitectureModel :=
  if errorsOf o = [] then
    .ok ⟨readStr o "agent_id" "", readStr o "agent_name" "",
         readStr o "agent_type" "", readStr o "primary_role" "",
         readStr o "capabilities" "", readStr o "dependencies" "",
         readStr o "communication_protocol" "REST", readStr o "description" ""⟩
  else .error (errorsOf o)

def Valid (m : AgentArchitectureModel) : Prop := errorsOf (toJson m) = []

instance (m : AgentArchitectureModel) : Decidable m.Valid := by
  unfold Valid; infer_instance

end AgentArchitectureModel

/-! ### AgentConfigurationModel (brd_models.py lines 194-202) -/

structure AgentConfigurationModel where
  config_id : String
  agent_id : String
  parameter_name : String
  parameter_value : String
  parameter_type : String
  description : String
  required : Bool
deriving DecidableEq

namespace AgentConfigurationModel

def toJson (m : AgentConfigurationModel) : JObj :=
  [("config_id", .s m.config_id),
   ("agent_id", .s m.agent_id),
   ("parameter_name", .s m.parameter_name),
   ("parameter_value", .s m.parameter_value),
   ("parameter_type", .s m.parameter_type),
   ("description", .s m.description),
   ("required", .b m.required)]

def errorsOf (o : JObj) : List String :=
  reqErr o "config_id" (strOk 1 50) ++
  reqErr o "agent_id" (strOk 1 50) ++
  reqErr o "parameter_name" (strOk 1 255) ++
  reqErr o "parameter_value" (strOk 1 1000) ++
  optErr o "parameter_type" strAny ++
  optErr o "description" (strOk 0 500) ++
  optErr o "required" boolOk

def ofJson (o : JObj) : Except (List String) AgentConfigurationModel :=
  if errorsOf o = [] then
    .ok ⟨readStr o "config_id" "", readStr o "agent_id" "",
         readStr o "parameter_name" "", readStr o "parameter_value" "",
         readStr o "parameter_type" "string", readStr o "description" "",
         readBool o "required" true⟩
  else .error (errorsOf o)

def Valid (m : AgentConfigurationModel) : Prop := errorsOf (toJson m) = []

instance (m : AgentConfigurationModel) : Decidable m.Valid := by
  unfold Valid; infer_instance

end AgentConfigurationModel

/-! ### AgentTaskModel (brd_models.py lines 219-228) -/

structure AgentTaskModel where
  task_id : String
  agent_id : String
  task_name : String
  task_type : String
  input_data : String
  output_data : String
  success_criteria : String
  error_handling : String
  description : String
deriving DecidableEq

namespace AgentTaskModel

def toJson (m : AgentTaskModel) : JObj :=
  [("task_id", .s m.task_id),
   ("agent_id", .s m.agent_id),
   ("task_name", .s m.task_name),
   ("task_type", .s m.task_type),
   ("input_data", .s m.input_data),
   ("output_data", .s m.output_data),
   ("success_criteria", .s m.success_criteria),
   ("error_handling", .s m.error_handling),
   ("description", .s m.description)]

def errorsOf (o : JObj) : List String :=
  reqErr o "task_id" (strOk 1 50) ++
  reqErr o "agent_id" (strOk 1 50) ++
  reqErr o "task_name" (strOk 1 255) ++
  reqErr o "task_type" strAny ++
  optErr o "input_data" (strOk 0 1000) ++
  optErr o "output_data" (strOk 0 1000) ++
  optErr o "success_criteria" (strOk 0 1000) ++
  optErr o "error_handling" (strOk 0 500) ++
  optErr o "description" (strOk 0 1000)

def ofJson (o : JObj) : Except (List String) AgentTaskModel :=
  if errorsOf o = [] then
    .ok ⟨readStr o "task_id" "", readStr o "agent_id" "",
         readStr o "task_name" "", readStr o "task_type" "",
         readStr o "input_data" "", readStr o "output_data" "",
         readStr o "success_criteria" "", readStr o "error_handling" "",
         readStr o "description" ""⟩
  else .error (errorsOf o)

def Valid (m : AgentTaskModel) : Prop := errorsOf (toJson m) = []

instance (m : AgentTaskModel) : Decidable m.Valid := by
  unfold Valid; infer_instance

end AgentTaskModel

/-! ### BRDProjectModel (brd_models.py lines 246-261)

The loaded aggregate. Its created_at / updated_at fields are fresh
default-factory timestamps not reconstructed by get_project and are not part
of any claim, so they are not modelled on the aggregate (the persisted
timestamps live on the stored row). -/

structure BRDProjectModel where
  project_id : Option String
  template_type : String
  overview : OverviewModel
  ui_specifications : List UISpecificationModel
  api_specifications : List APISpecificationModel
  llm_prompts : List LLMPromptModel
  database_schema : List DatabaseSchemaModel
  tech_stack : List TechStackModel
  traceability_matrix : List TraceabilityModel
  agent_architectures : List AgentArchitectureModel
  agent_configurations : List AgentConfigurationModel
  agent_tasks : List AgentTaskModel
deriving DecidableEq

/-! ### Persistence store (src/utils/database.py)

One SQLite row per project; every collection is one independently serialized
TEXT column. A column value is modelled by what json.loads makes of it. -/

/-- The content of one serialized column as the loader sees it:
empty is NULL or the empty string (falsy, so the per-block guard skips it);
corrupt is non-empty text that json.loads rejects or that parses to a shape
other than an object or an array of objects; obj and arr are parsed JSON. -/
inductive Block where
  | empty
  | corrupt
  | obj (o : JObj)
  | arr (l : List JObj)
deriving DecidableEq

/-- One list comprehension building records from a parsed array, run inside
a single try: one failing record fails the whole block. -/
def parseList (pf : JObj → Except (List String) α) : List JObj → Option (List α)
  | [] => some []
  | o :: rest =>
    match pf o with
    | .ok m => (parseList pf rest).map (fun ms => m :: ms)
    | .error _ => none

/-- json.loads of a collection block followed by record construction:
succeeds only on an array whose members all construct. -/
def blockDec (pf : JObj → Except (List String) α) : Block → Option (List α)
  | .arr l => parseList pf l
  | _ => none

/-- The per-block handling in get_project: the falsy guard skips empty
blocks and the per-block try/except logs and keeps the empty collection on
any failure, so every failure shape yields the empty list. -/
def decodeBlock (pf : JObj → Except (List String) α) (b : Block) : List α :=
  (blockDec pf b).getD []

/-- json.loads of the overview block followed by OverviewModel construction.
In get_project this is not wrapped in a per-block try: a failure propagates
to the outer handler, which re-raises. -/
def decodeOverview : Block → Option OverviewModel
  | .obj o => (OverviewModel.ofJson o).toOption
  | _ => none

/-- A row of the projects table in the current schema (all columns). -/
structure StoredRow where
  project_id : String
  project_name : String
  template_type : String
  overview_json : Block
  ui_specs_json : Block
  api_specs_json : Block
  llm_prompts_json : Block
  db_schema_json : Block
  tech_stack_json : Block
  traceability_json : Block
  agent_architectures_json : Block
  agent_configurations_json : Block
  agent_tasks_json : Block
  created_at : String
  updated_at : String
deriving DecidableEq

/-- A row of the projects table as created before the template_type and
agent-collection columns existed. -/
structure OldRow where
  project_id : String
  project_name : String
  overview_json : Block
  ui_specs_json : Block
  api_specs_json : Block
  llm_prompts_json : Block
  db_schema_json : Block
  tech_stack_json : Block
  traceability_json : Block
  created_at : String
  updated_at : String
deriving DecidableEq

/-- The projects table in the current schema. -/
structure ProjectsTable where
  rows : List StoredRow
deriving DecidableEq

/-- The datastore init_database may be pointed at: either a table created
before the newer columns existed, or a table with the full current schema. -/
inductive Database where
  | old (rows : List OldRow)
  | current (t : ProjectsTable)
deriving DecidableEq

/-- ALTER TABLE ADD COLUMN with a declared default gives every pre-existing
row that default: template_type becomes the string Normal and each agent
block becomes the text of the empty JSON array. -/
def migrateRow (r : OldRow) : StoredRow :=
  { project_id := r.project_id
    project_name := r.project_name
    template_type := "Normal"
    overview_json := r.overview_json
    ui_specs_json := r.ui_specs_json
    api_specs_json := r.api_specs_json
    llm_prompts_json := r.llm_prompts_json
    db_schema_json := r.db_schema_json
    tech_stack_json := r.tech_stack_json
    traceability_json := r.traceability_json
    agent_architectures_json := .arr []
    agent_configurations_json := .arr []
    agent_tasks_json := .arr []
    created_at := r.created_at
    updated_at := r.updated_at }

/-- The table as it stands after init_database has run: missing columns are
added with their defaults, an existing full schema is left untouched. -/
def initTable : Database → ProjectsTable
  | .old rows => ⟨rows.map migrateRow⟩
  | .current t => t

/-- init_database (database.py lines 20-84): create the table when absent,
otherwise add only the columns PRAGMA table_info reports missing. -/
def init_database (db : Database) : Database := .current (initTable db)

/-- Serialize an aggregate into the column values of one row, as both the
INSERT of create_project and the UPDATE of update_project do. -/
def rowOf (pid : String) (p : BRDProjectModel) (created updated : String) :
    StoredRow :=
  { project_id := pid
    project_name := p.overview.project_name
    template_type := p.template_type
    overview_json := .obj p.overview.toJson
    ui_specs_json := .arr (p.ui_specifications.map UISpecificationModel.toJson)
    api_specs_json := .arr (p.api_specifications.map APISpecificationModel.toJson)
    llm_prompts_json := .arr (p.llm_prompts.map LLMPromptModel.toJson)
    db_schema_json := .arr (p.database_schema.map DatabaseSchemaModel.toJson)
    tech_stack_json := .arr (p.tech_stack.map TechStackModel.toJson)
    traceability_json := .arr (p.traceability_matrix.map TraceabilityModel.toJson)
    agent_architectures_json := .arr (p.agent_architectures.map AgentArchitectureModel.toJson)
    agent_configurations_json := .arr (p.agent_configurations.map AgentConfigurationModel.toJson)
    agent_tasks_json := .arr (p.agent_tasks.map AgentTaskModel.toJson)
    created_at := created
    updated_at := updated }

/-- create_project (database.py lines 87-148): run init_database, generate
the id proj-<timestamp>, INSERT one full row. The parameter now stands for
the datetime.now() timestamp string. The PRIMARY KEY constraint rejects an
id already present (modelled as none). The id carried by the aggregate is
ignored; the generated id is returned. -/
def create_project (db : Database) (p : BRDProjectModel) (now : String) :
    Option (String × Database) :=
  if (initTable db).rows.any (fun r => r.project_id = "proj-" ++ now) then
    none
  else
    some ("proj-" ++ now, .current
      ⟨(initTable db).rows ++ [rowOf ("proj-" ++ now) p now now]⟩)

/-- SELECT * FROM projects WHERE project_id = pid. -/
def findRow (t : ProjectsTable) (pid : String) : Option StoredRow :=
  t.rows.find? (fun r => r.project_id = pid)

/-- The template_type read in get_project: a falsy stored value (NULL or
the empty string) falls back to Normal. -/
def effectiveTemplate (s : String) : String :=
  if s = "" then "Normal" else s

/-- Outcome of get_project: row absent (returns None), an exception
propagated out of the outer handler (raise), or a loaded aggregate. -/
inductive LoadResult where
  | notFound
  | error
  | ok (p : BRDProjectModel)
deriving DecidableEq

/-- get_project (database.py lines 151-291): run init_database, fetch the
row, rebuild the overview (failures raise), then fill each collection from
its own block with a per-block try that defaults to the empty list. -/
def get_project (db : Database) (pid : String) : LoadResult :=
  match findRow (initTable db) pid with
  | none => .notFound
  | some row =>
    match decodeOverview row.overview_json with
    | none => .error
    | some ov =>
      .ok { project_id := some row.project_id
            template_type := effectiveTemplate row.template_type
            overview := ov
            ui_specifications := decodeBlock UISpecificationModel.ofJson row.ui_specs_json
            api_specifications := decodeBlock APISpecificationModel.ofJson row.api_specs_json
            llm_prompts := decodeBlock LLMPromptModel.ofJson row.llm_prompts_json
            database_schema := decodeBlock DatabaseSchemaModel.ofJson row.db_schema_json
            tech_stack := decodeBlock TechStackModel.ofJson row.tech_stack_json
            traceability_matrix := decodeBlock TraceabilityModel.ofJson row.traceability_json
            agent_architectures := decodeBlock AgentArchitectureModel.ofJson row.agent_architectures_json
            agent_configurations := decodeBlock AgentConfigurationModel.ofJson row.agent_configurations_json
            agent_tasks := decodeBlock AgentTaskModel.ofJson row.agent_tasks_json }

/-- update_project (database.py lines 294-348): run init_database, then
UPDATE every column except project_id and created_at on the rows whose
project_id matches the id carried by the aggregate. An aggregate without an
id matches no row; an id absent from the table updates nothing. The function
returns True in every one of these cases. -/
def update_project (db : Database) (p : BRDProjectModel) (now : String) :
    Database :=
  match p.project_id with
  | none => .current (initTable db)
  | some pid =>
    .current ⟨(initTable db).rows.map (fun r =>
      if r.project_id = pid then rowOf r.project_id p r.created_at now else r)⟩

/-- Saving as the app exercises it (app.py lines 350 and 464): a freshly
created aggregate, which carries no id yet, goes through create_project; an
aggregate loaded for editing, which carries its id, goes through
update_project. -/
def save_project (db : Database) (p : BRDProjectModel) (now : String) :
    Option (String × Database) :=
  match p.project_id with
  | none => create_project db p now
  | some pid => some (pid, update_project db p now)

/-! ### Tabular exporter (src/utils/excel_export.py) -/

/-- One worksheet: its tab name, its styled header row and its data rows.
Cells hold the same scalar values the openpyxl calls write. -/
structure Sheet where
  name : String
  header : List String
  rows : List (List JVal)
deriving DecidableEq

/-- The Python idiom value or default applied to every exported cell. -/
def orD (v d : String) : String := if v = "" then d else v

/-- create_overview_sheet: a fixed Field/Value layout; the now parameter is
the str(datetime.now()) written into the Created At row. -/
def overviewSheet (p : BRDProjectModel) (now : String) : Sheet :=
  { name := "1. Overview"
    header := ["Field", "Value"]
    rows :=
      [[.s "Project Name", .s p.overview.project_name],
       [.s "Project Description", .s p.overview.project_description],
       [.s "Business Goal", .s p.overview.business_goal],
       [.s "Document Version", .s p.overview.document_version],
       [.s "Prepared By", .s p.overview.prepared_by],
       [.s "Approved By", .s p.overview.approved_by],
       [.s "Target Release Date", .s ((p.overview.target_release_date).getD "")],
       [.s "Created At", .s now]] }

/-- create_ui_spec_sheet. -/
def uiSheet (p : BRDProjectModel) : Sheet :=
  { name := "2. UI Specification"
    header := ["Screen/Component", "Requirement Description", "Business Rule",
               "Requirement ID", "Feature/Module"]
    rows := p.ui_specifications.map (fun spec =>
      [.s spec.screen_component, .s spec.requirement_description,
       .s spec.business_rule, .s spec.requirement_id, .s spec.feature_module]) }

/-- create_api_spec_sheet. -/
def apiSheet (p : BRDProjectModel) : Sheet :=
  { name := "3. API Specification"
    header := ["API ID", "API Name", "Method", "Endpoint", "Request Payload",
               "Response Payload", "Business Rule", "API Type"]
    rows := p.api_specifications.map (fun spec =>
      [.s spec.api_id, .s spec.api_name, .s (orD spec.method "POST"),
       .s spec.endpoint, .s spec.request_payload, .s spec.response_payload,
       .s spec.business_rule, .s spec.api_type]) }

/-- create_llm_prompt_sheet; a zero temperature is falsy in Python, so the
cell falls back to 0.7 there. -/
def llmSheet (p : BRDProjectModel) : Sheet :=
  { name := "4. LLM Prompts"
    header := ["Prompt ID", "Use Case", "Model", "Temperature",
               "Input Variables", "Prompt Template", "Expected Output"]
    rows := p.llm_prompts.map (fun prompt =>
      [.s prompt.prompt_id, .s prompt.use_case,
       .s (orD prompt.model_name "llama3.2"),
       .num (if prompt.temperature = 0 then 7 / 10 else prompt.temperature),
       .s prompt.input_variables, .s prompt.prompt_template,
       .s prompt.expected_output]) }

/-- create_database_schema_sheet. -/
def dbSheet (p : BRDProjectModel) : Sheet :=
  { name := "5. Database Schema"
    header := ["Table Name", "Field Name", "Data Type", "Constraints",
               "Relationship", "Description"]
    rows := p.database_schema.map (fun f =>
      [.s f.table_name, .s f.field_name, .s (orD f.data_type "VARCHAR"),
       .s f.constraints, .s (orD f.relationship "N/A"), .s f.description]) }

/-- create_tech_stack_sheet. -/
def techSheet (p : BRDProjectModel) : Sheet :=
  { name := "6. Tech Stack & VC"
    header := ["Category", "Technology/Tool", "Version", "Rationale",
               "Repository URL"]
    rows := p.tech_stack.map (fun tech =>
      [.s tech.category, .s tech.technology_tool, .s tech.version,
       .s tech.rationale, .s tech.repository_url]) }

/-- create_traceability_sheet. -/
def traceSheet (p : BRDProjectModel) : Sheet :=
  { name := "7. Traceability Matrix"
    header := ["Requirement ID", "Business Requirement", "Linked UI IDs",
               "Linked API IDs", "Linked LLM IDs", "Status"]
    rows := p.traceability_matrix.map (fun link =>
      [.s link.business_requirement_id, .s link.business_requirement,
       .s link.linked_ui_id, .s link.linked_api_id, .s link.linked_llm_id,
       .s (orD link.status "Proposed")]) }

/-- create_agent_architecture_sheet. -/
def archSheet (p : BRDProjectModel) : Sheet :=
  { name := "8. Agent Architecture"
    header := ["Agent ID", "Agent Name", "Agent Type", "Primary Role",
               "Capabilities", "Dependencies", "Communication Protocol",
               "Description"]
    rows := p.agent_architectures.map (fun agent =>
      [.s agent.agent_id, .s agent.agent_name, .s agent.agent_type,
       .s agent.primary_role, .s agent.capabilities, .s agent.dependencies,
       .s (orD agent.communication_protocol "REST"), .s agent.description]) }

/-- create_agent_configuration_sheet. -/
def configSheet (p : BRDProjectModel) : Sheet :=
  { name := "9. Agent Configuration"
    header := ["Config ID", "Agent ID", "Parameter Name", "Parameter Value",
               "Parameter Type", "Description", "Required"]
    rows := p.agent_configurations.map (fun config =>
      [.s config.config_id, .s config.agent_id, .s config.parameter_name,
       .s config.parameter_value, .s (orD config.parameter_type "string"),
       .s config.description, .s (if config.required then "Yes" else "No")]) }

/-- create_agent_task_sheet. -/
def taskSheet (p : BRDProjectModel) : Sheet :=
  { name := "10. Agent Tasks"
    header := ["Task ID", "Agent ID", "Task Name", "Task Type", "Input Data",
               "Output Data", "Success Criteria", "Error Handling",
               "Description"]
    rows := p.agent_tasks.map (fun task =>
      [.s task.task_id, .s task.agent_id, .s task.task_name, .s task.task_type,
       .s task.input_data, .s task.output_data, .s task.success_criteria,
       .s task.error_handling, .s task.description]) }

/-- export_to_excel (excel_export.py lines 15-60): the seven document sheets
are always created, in this order; each agent sheet is created only when its
collection is non-empty (hasattr always holds on a BRDProjectModel, so the
guard reduces to non-emptiness). -/
def export_to_excel (p : BRDProjectModel) (now : String) : List Sheet :=
  [overviewSheet p now, uiSheet p, apiSheet p, llmSheet p, dbSheet p,
   techSheet p, traceSheet p] ++
  (if p.agent_architectures = [] then [] else [archSheet p]) ++
  (if p.agent_configurations = [] then [] else [configSheet p]) ++
  (if p.agent_tasks = [] then [] else [taskSheet p])

/-! ### Suggestion gateway (src/utils/llm_integration.py) -/

/-- The fixed model list AVAILABLE_MODELS (llm_integration.py lines 15-20).
It feeds the UI model picker; record construction never consults it. -/
def AVAILABLE_MODELS : List String :=
  ["llama3.2", "mistral", "deepseek-r1", "phi4-mini"]

/-- Outcome of the single requests.post call made for one suggestion
request: a streamed response given as its iter_lines items (each line is
text json.loads may or may not accept), a ConnectionError, a Timeout, or
any other exception. -/
inductive OllamaOutcome where
  | ok (lines : List Block)
  | connError
  | timeout
  | other (msg : String)
deriving DecidableEq

/-- The error text yielded on requests.exceptions.ConnectionError. -/
def connectErrMsg : String :=
  "Error: Could not connect to Ollama. Make sure Ollama is running on http://localhost:11434"

/-- The error text yielded on requests.exceptions.Timeout. -/
def timeoutErrMsg : String :=
  "Error: Request timed out. Ollama is taking too long to respond."

/-- One streamed line: lines json.loads rejects are skipped (continue), and
a parsed object contributes its response field when present. -/
def respOf : Block → Option JVal
  | .obj o => getF o "response"
  | _ => none

/-- The stream of chunks _stream_ollama_response (llm_integration.py lines
169-202) yields for one request: the response chunks on success, otherwise
exactly one error message chosen by the exception kind. The function makes
a single requests.post call, so there is no retry. -/
def streamOllama (out : OllamaOutcome) : List JVal :=
  match out with
  | .ok lines => lines.filterMap respOf
  | .connError => [.s connectErrMsg]
  | .timeout => [.s timeoutErrMsg]
  | .other e => [.s ("Error: " ++ e)]

/-! ### Derived predicates used by the claims -/

/-- Every record in every collection of the aggregate, and its overview,
satisfies the field constraints of its kind. -/
def AllValid (p : BRDProjectModel) : Prop :=
  p.overview.Valid ∧
  (∀ m ∈ p.ui_specifications, m.Valid) ∧
  (∀ m ∈ p.api_specifications, m.Valid) ∧
  (∀ m ∈ p.llm_prompts, m.Valid) ∧
  (∀ m ∈ p.database_schema, m.Valid) ∧
  (∀ m ∈ p.tech_stack, m.Valid) ∧
  (∀ m ∈ p.traceability_matrix, m.Valid) ∧
  (∀ m ∈ p.agent_architectures, m.Valid) ∧
  (∀ m ∈ p.agent_configurations, m.Valid) ∧
  (∀ m ∈ p.agent_tasks, m.Valid)

instance (p : BRDProjectModel) : Decidable (AllValid p) := by
  unfold AllValid; infer_instance

/-- The aggregate get_project rebuilds from a row that was serialized from
p under id pid: same overview and collections, the stored id, and the
falsy-template fallback applied. -/
def loadedOf (pid : String) (p : BRDProjectModel) : BRDProjectModel :=
  { project_id := some pid
    template_type := effectiveTemplate p.template_type
    overview := p.overview
    ui_specifications := p.ui_specifications
    api_specifications := p.api_specifications
    llm_prompts := p.llm_prompts
    database_schema := p.database_schema
    tech_stack := p.tech_stack
    traceability_matrix := p.traceability_matrix
    agent_architectures := p.agent_architectures
    agent_configurations := p.agent_configurations
    agent_tasks := p.agent_tasks }

/-- A single field of an input dict violates its declared constraint: a
required field is missing, or a present value fails its check. -/
def violAt (o : JObj) (k : String) (req : Bool) (ck : JVal → Bool) : Bool :=
  match getF o k with
  | none => req
  | some v => !(ck v)

/-- Which named field of an LLMPromptModel input violates its constraint,
field by field as declared in the source. -/
def LLMPromptModel.fieldViolated (o : JObj) (f : String) : Bool :=
  if f = "prompt_id" then violAt o "prompt_id" true (strOk 1 50)
  else if f = "use_case" then violAt o "use_case" true (strOk 1 255)
  else if f = "prompt_template" then violAt o "prompt_template" true (strOk 10 5000)
  else if f = "input_variables" then violAt o "input_variables" false (strOk 0 1000)
  else if f = "expected_output" then violAt o "expected_output" false (strOk 0 1000)
  else if f = "model_name" then violAt o "model_name" false strAny
  else if f = "temperature" then violAt o "temperature" false (numOk 0 2)
  else false

/-- Which named field of an OverviewModel input violates its constraint. -/
def OverviewModel.fieldViolated (o : JObj) (f : String) : Bool :=
  if f = "project_name" then violAt o "project_name" true (strOk 1 255)
  else if f = "project_description" then violAt o "project_description" true (strOk 10 2000)
  else if f = "business_goal" then violAt o "business_goal" true (strOk 10 2000)
  else if f = "document_version" then violAt o "document_version" false strAny
  else if f = "prepared_by" then violAt o "prepared_by" false (strOk 0 255)
  else if f = "approved_by" then violAt o "approved_by" false (strOk 0 255)
  else if f = "target_release_date" then violAt o "target_release_date" false optStrOk
  else false

/-- An APISpecificationModel input dict supplying only the four required
fields: id, name, HTTP method and endpoint. -/
def mkApiInput (i n m e : String) : JObj :=
  [("api_id", .s i), ("api_name", .s n), ("method", .s m), ("endpoint", .s e)]

/-- An LLMPromptModel input dict with fixed valid required fields, a chosen
model name and a chosen temperature. -/
def mkLLMInput (mn : String) (t : Rat) : JObj :=
  [("prompt_id", .s "LLM-001"), ("use_case", .s "Summarization"),
   ("prompt_template", .s "Summarize the following text"),
   ("model_name", .s mn), ("temperature", .num t)]

/-! ### Concrete sample data used by witnesses and counterexamples -/

def sampleOverview : OverviewModel :=
  ⟨"Order Tracker", "Tracks customer orders end to end",
   "Reduce order-status inquiries by 40 percent", "1.0", "Local AI", "",
   some "2025-12-31"⟩

def sampleUISpec : UISpecificationModel :=
  ⟨"UI-001", "Orders", "Order List",
   "Paginated list of orders with a status filter", "", "", "N/A", "Must"⟩

def sampleAPISpec : APISpecificationModel :=
  ⟨"API-001", "Submit New Feedback", "POST", "/api/v1/feedback",
   "", "", "", "Internal"⟩

def sampleLLMPrompt : LLMPromptModel :=
  ⟨"LLM-001", "Sentiment Analysis", "Analyze the sentiment of this text",
   "", "", "llama3.2", 1⟩

def sampleDbField : DatabaseSchemaModel :=
  ⟨"Feedback", "feedback_id", "INT", "NOT NULL", "Primary", ""⟩

def sampleTech : TechStackModel :=
  ⟨"Backend Framework", "FastAPI", "0.115.6", "", ""⟩

def sampleTrace : TraceabilityModel :=
  ⟨"BR-001", "Track customer orders end to end", "UI-001", "API-001",
   "LLM-001", "Proposed"⟩

def sampleArch : AgentArchitectureModel :=
  ⟨"AGENT-001", "Feedback Analyzer", "Autonomous", "Analyze feedback",
   "", "", "REST", ""⟩

def sampleConfig : AgentConfigurationModel :=
  ⟨"CONFIG-001", "AGENT-001", "sentiment_threshold", "0.7", "float", "",
   true⟩

def sampleTask : AgentTaskModel :=
  ⟨"TASK-001", "AGENT-001", "Analyze Feedback", "Data Processing",
   "", "", "", "", ""⟩

/-- A fully populated, constraint-satisfying aggregate not yet persisted. -/
def sampleProject : BRDProjectModel :=
  ⟨none, "Agentic", sampleOverview, [sampleUISpec], [sampleAPISpec],
   [sampleLLMPrompt], [sampleDbField], [sampleTech], [sampleTrace],
   [sampleArch], [sampleConfig], [sampleTask]⟩

/-- The table create_project produces from an empty store for
sampleProject at timestamp 20251001120000. -/
def sampleDb2 : Database :=
  .current ⟨[rowOf "proj-20251001120000" sampleProject "20251001120000"
    "20251001120000"]⟩

/-- A stored row serialized from sampleProject whose UI block is corrupt
text while every other block is intact. -/
def c2Row : StoredRow :=
  { rowOf "proj-0001" sampleProject "t0" "t0" with ui_specs_json := .corrupt }

/-- A pre-migration row (old schema, no template or agent columns). -/
def c3OldRow : OldRow :=
  ⟨"proj-legacy", "Order Tracker", .obj sampleOverview.toJson,
   .arr [sampleUISpec.toJson], .arr [], .arr [], .arr [], .arr [], .arr [],
   "t0", "t0"⟩

/-- An LLMPromptModel input violating three constraints at once: empty
use_case, too-short prompt_template and out-of-range temperature. -/
def c4Input : JObj :=
  [("prompt_id", .s "LLM-001"), ("use_case", .s ""),
   ("prompt_template", .s "short"), ("temperature", .num 3)]

/-- An aggregate carrying an id that no stored row has. -/
def staleProject : BRDProjectModel :=
  { sampleProject with project_id := some "proj-ghost" }

/-- An APISpecificationModel input with a non-enum HTTP method and neither
payload description supplied. -/
def c8Input : JObj :=
  [("api_id", .s "API-001"), ("api_name", .s "Teleport Users"),
   ("method", .s "TELEPORT"), ("endpoint", .s "/api/v1/teleport")]

/-- An LLMPromptModel input whose model name is outside AVAILABLE_MODELS. -/
def c9Input : JObj := mkLLMInput "gpt-99x" 1

/-- A stored row whose overview block is corrupt text. -/
def c10Row : StoredRow :=
  { rowOf "proj-0010" sampleProject "t0" "t0" with overview_json := .corrupt }

/-! ### Helper lemmas -/

/-- A record satisfying its field constraints is rebuilt unchanged from its
own model_dump. -/
theorem overview_roundtrip (m : OverviewModel) (h : m.Valid) :
    OverviewModel.ofJson m.toJson = .ok m := by
  unfold OverviewModel.Valid at h
  unfold OverviewModel.ofJson
  rw [if_pos h]
  rcases m with ⟨pn, pd, bg, dv, pb, ab, trd⟩
  cases trd <;>
    simp [OverviewModel.toJson, readStr, readOptStr, getF, List.find?, jOptStr]

/-- A record satisfying its field constraints is rebuilt unchanged from its
own model_dump. -/
theorem ui_spec_roundtrip (m : UISpecificationModel)
    (h : m.Valid) : UISpecificationModel.ofJson m.toJson = .ok m := by
  unfold UISpecificationModel.Valid at h
  unfold UISpecificationModel.ofJson
  rw [if_pos h]
  rcases m with ⟨f1, f2, f3, f4, f5, f6, f7, f8⟩
  simp [UISpecificationModel.toJson, readStr, getF, List.find?]

/-- A record satisfying its field constraints is rebuilt unchanged from its
own model_dump. -/
theorem api_spec_roundtrip (m : APISpecificationModel)
    (h : m.Valid) : APISpecificationModel.ofJson m.toJson = .ok m := by
  unfold APISpecificationModel.Valid at h
  unfold APISpecificationModel.ofJson
  rw [if_pos h]
  rcases m with ⟨f1, f2, f3, f4, f5, f6, f7, f8⟩
  simp [APISpecificationModel.toJson, readStr, getF, List.find?]

/-- A record satisfying its field constraints is rebuilt unchanged from its
own model_dump. -/
theorem llm_prompt_roundtrip (m : LLMPromptModel) (h : m.Valid) :
    LLMPromptModel.ofJson m.toJson = .ok m := by
  unfold LLMPromptModel.Valid at h
  unfold LLMPromptModel.ofJson
  rw [if_pos h]
  rcases m with ⟨f1, f2, f3, f4, f5, f6, f7⟩
  simp [LLMPromptModel.toJson, readStr, readNum, getF, List.find?]

/-- A record satisfying its field constraints is rebuilt unchanged from its
own model_dump. -/
theorem db_schema_roundtrip (m : DatabaseSchemaModel)
    (h : m.Valid) : DatabaseSchemaModel.ofJson m.toJson = .ok m := by
  unfold DatabaseSchemaModel.Valid at h
  unfold DatabaseSchemaModel.ofJson
  rw [if_pos h]
  rcases m with ⟨f1, f2, f3, f4, f5, f6⟩
  simp [DatabaseSchemaModel.toJson, readStr, getF, List.find?]

/-- A record satisfying its field constraints is rebuilt unchanged from its
own model_dump. -/
theorem tech_stack_roundtrip (m : TechStackModel) (h : m.Valid) :
    TechStackModel.ofJson m.toJson = .ok m := by
  unfold TechStackModel.Valid at h
  unfold TechStackModel.ofJson
  rw [if_pos h]
  rcases m with ⟨f1, f2, f3, f4, f5⟩
  simp [TechStackModel.toJson, readStr, getF, List.find?]

/-- A record satisfying its field constraints is rebuilt unchanged from its
own model_dump. -/
theorem traceability_roundtrip (m : TraceabilityModel) (h : m.Valid) :
    TraceabilityModel.ofJson m.toJson = .ok m := by
  unfold TraceabilityModel.Valid at h
  unfold TraceabilityModel.ofJson
  rw [if_pos h]
  rcases m with ⟨f1, f2, f3, f4, f5, f6⟩
  simp [TraceabilityModel.toJson, readStr, getF, List.find?]

/-- A record satisfying its field constraints is rebuilt unchanged from its
own model_dump. -/
theorem agent_arch_roundtrip (m : AgentArchitectureModel)
    (h : m.Valid) : AgentArchitectureModel.ofJson m.toJson = .ok m := by
  unfold AgentArchitectureModel.Valid at h
  unfold AgentArchitectureModel.ofJson
  rw [if_pos h]
  rcases m with ⟨f1, f2, f3, f4, f5, f6, f7, f8⟩
  simp [AgentArchitectureModel.toJson, readStr, getF, List.find?]

/-- A record satisfying its field constraints is rebuilt unchanged from its
own model_dump. -/
theorem agent_config_roundtrip (m : AgentConfigurationModel)
    (h : m.Valid) : AgentConfigurationModel.ofJson m.toJson = .ok m := by
  unfold AgentConfigurationModel.Valid at h
  unfold AgentConfigurationModel.ofJson
  rw [if_pos h]
  rcases m with ⟨f1, f2, f3, f4, f5, f6, f7⟩
  simp [AgentConfigurationModel.toJson, readStr, readBool, getF, List.find?]

/-- A record satisfying its field constraints is rebuilt unchanged from its
own model_dump. -/
theorem agent_task_roundtrip (m : AgentTaskModel) (h : m.Valid) :
    AgentTaskModel.ofJson m.toJson = .ok m := by
  unfold AgentTaskModel.Valid at h
  unfold AgentTaskModel.ofJson
  rw [if_pos h]
  rcases m with ⟨f1, f2, f3, f4, f5, f6, f7, f8, f9⟩
  simp [AgentTaskModel.toJson, readStr, getF, List.find?]

/-- Parsing a serialized list of records succeeds and returns the records
when every member is rebuilt by its own parser. -/
theorem parseList_map {α : Type} (pf : JObj → Except (List String) α)
    (tj : α → JObj) (ms : List α) (h : ∀ m ∈ ms, pf (tj m) = .ok m) :
    parseList pf (ms.map tj) = some ms := by
  induction ms with
  | nil => rfl
  | cons a rest ih =>
    have ha : pf (tj a) = .ok a := h a (List.mem_cons_self a rest)
    have hr : parseList pf (rest.map tj) = some rest :=
      ih (fun m hm => h m (List.mem_cons_of_mem a hm))
    simp [List.map, parseList, ha, hr]

/-- A serialized collection block decodes back to its records when every
record is rebuilt by its own parser. -/
theorem decodeBlock_map {α : Type} (pf : JObj → Except (List String) α)
    (tj : α → JObj) (ms : List α) (h : ∀ m ∈ ms, pf (tj m) = .ok m) :
    decodeBlock pf (.arr (ms.map tj)) = ms := by
  simp [decodeBlock, blockDec, parseList_map pf tj ms h]

/-- Looking a fresh id up in a table extended by a row carrying that id
finds exactly that row. -/
theorem findRow_append (rows : List StoredRow) (x : StoredRow) (pid : String)
    (hfresh : ∀ r ∈ rows, r.project_id ≠ pid) (hx : x.project_id = pid) :
    findRow ⟨rows ++ [x]⟩ pid = some x := by
  induction rows with
  | nil => simp [findRow, List.find?, hx]
  | cons a rest ih =>
    have ha : a.project_id ≠ pid := hfresh a (List.mem_cons_self a rest)
    have hrest : findRow ⟨rest ++ [x]⟩ pid = some x :=
      ih (fun r hr => hfresh r (List.mem_cons_of_mem a hr))
    simpa [findRow, List.find?, ha] using hrest

/-- Row lookup commutes with a per-row rewrite that keeps every id. -/
theorem findRow_map (rows : List StoredRow) (pid : String)
    (u : StoredRow → StoredRow)
    (hu : ∀ r : StoredRow, (u r).project_id = r.project_id) :
    findRow ⟨rows.map u⟩ pid = (findRow ⟨rows⟩ pid).map u := by
  induction rows with
  | nil => rfl
  | cons a rest ih =>
    by_cases h : a.project_id = pid
    · simp [findRow, List.find?, hu, h]
    · simpa [findRow, List.find?, hu, h] using ih

/-- Loading by the id create_project returned rebuilds the aggregate that
was saved, whenever the saved aggregate satisfies all field constraints. -/
theorem get_after_create (db : Database) (p : BRDProjectModel)
    (now pid : String) (db2 : Database) (hA : AllValid p)
    (hc : create_project db p now = some (pid, db2)) :
    get_project db2 pid = .ok (loadedOf pid p) := by
  obtain ⟨hov, hui, hapi, hllm, hdbf, htech, htr, harch, hconf, htask⟩ := hA
  unfold create_project at hc
  by_cases hany :
      (initTable db).rows.any (fun r => r.project_id = "proj-" ++ now)
  · simp [hany] at hc
  · simp only [hany, Bool.false_eq_true, if_neg, ite_false,
      Option.some.injEq, Prod.mk.injEq] at hc
    obtain ⟨hpid, hdb2⟩ := hc
    subst hdb2
    rw [hpid] at hany ⊢
    have hfresh : ∀ r ∈ (initTable db).rows, r.project_id ≠ pid := by
      intro r hr heq
      exact hany (List.any_eq_true.mpr ⟨r, hr, by simp [heq]⟩)
    unfold get_project
    rw [show initTable (.current ⟨(initTable db).rows ++
        [rowOf pid p now now]⟩) =
      ⟨(initTable db).rows ++ [rowOf pid p now now]⟩ from rfl]
    rw [findRow_append (initTable db).rows (rowOf pid p now now) pid hfresh
      rfl]
    show (match decodeOverview (rowOf pid p now now).overview_json with
      | none => LoadResult.error
      | some ov => _) = _
    rw [show (rowOf pid p now now).overview_json = .obj p.overview.toJson
      from rfl]
    rw [show decodeOverview (.obj p.overview.toJson) =
      (OverviewModel.ofJson p.overview.toJson).toOption from rfl]
    rw [overview_roundtrip p.overview hov]
    simp only [Except.toOption, rowOf, loadedOf, LoadResult.ok.injEq]
    refine BRDProjectModel.mk.injEq .. |>.mpr ?_
    refine ⟨rfl, rfl, rfl, ?_, ?_, ?_, ?_, ?_, ?_, ?_, ?_, ?_⟩
    · exact decodeBlock_map _ _ _
        (fun m hm => ui_spec_roundtrip m (hui m hm))
    · exact decodeBlock_map _ _ _
        (fun m hm => api_spec_roundtrip m (hapi m hm))
    · exact decodeBlock_map _ _ _
        (fun m hm => llm_prompt_roundtrip m (hllm m hm))
    · exact decodeBlock_map _ _ _
        (fun m hm => db_schema_roundtrip m (hdbf m hm))
    · exact decodeBlock_map _ _ _
        (fun m hm => tech_stack_roundtrip m (htech m hm))
    · exact decodeBlock_map _ _ _
        (fun m hm => traceability_roundtrip m (htr m hm))
    · exact decodeBlock_map _ _ _
        (fun m hm => agent_arch_roundtrip m (harch m hm))
    · exact decodeBlock_map _ _ _
        (fun m hm => agent_config_roundtrip m (hconf m hm))
    · exact decodeBlock_map _ _ _
        (fun m hm => agent_task_roundtrip m (htask m hm))

/-- Loading by the id an aggregate carries rebuilds the aggregate that
update_project saved over the existing row, whenever the saved aggregate
satisfies all field constraints. -/
theorem get_after_update (db : Database) (p : BRDProjectModel)
    (now pid : String) (r : StoredRow) (hA : AllValid p)
    (hid : p.project_id = some pid)
    (hfind : findRow (initTable db) pid = some r) :
    get_project (update_project db p now) pid = .ok (loadedOf pid p) := by
  obtain ⟨hov, hui, hapi, hllm, hdbf, htech, htr, harch, hconf, htask⟩ := hA
  have hfind2 : List.find? (fun s : StoredRow => decide (s.project_id = pid))
      (initTable db).rows = some r := by simpa [findRow] using hfind
  have hrpid : r.project_id = pid := by simpa using List.find?_some hfind2
  unfold update_project
  rw [hid]
  unfold get_project
  rw [show initTable (.current ⟨(initTable db).rows.map (fun s =>
      if s.project_id = pid then rowOf s.project_id p s.created_at now
      else s)⟩) = ⟨(initTable db).rows.map (fun s =>
      if s.project_id = pid then rowOf s.project_id p s.created_at now
      else s)⟩ from rfl]
  rw [findRow_map (initTable db).rows pid _ (by
    intro s
    by_cases hs : s.project_id = pid <;> simp [hs, rowOf])]
  rw [show findRow ⟨(initTable db).rows⟩ pid = some r from hfind]
  rw [show ((some r).map (fun s =>
      if s.project_id = pid then rowOf s.project_id p s.created_at now
      else s)) = some (if r.project_id = pid then
        rowOf r.project_id p r.created_at now else r) from rfl]
  rw [if_pos hrpid, hrpid]
  show (match decodeOverview (rowOf pid p r.created_at now).overview_json with
    | none => LoadResult.error
    | some ov => _) = _
  rw [show (rowOf pid p r.created_at now).overview_json =
    .obj p.overview.toJson from rfl]
  rw [show decodeOverview (.obj p.overview.toJson) =
    (OverviewModel.ofJson p.overview.toJson).toOption from rfl]
  rw [overview_roundtrip p.overview hov]
  simp only [Except.toOption, rowOf, loadedOf, LoadResult.ok.injEq]
  refine BRDProjectModel.mk.injEq .. |>.mpr ?_
  refine ⟨rfl, rfl, rfl, ?_, ?_, ?_, ?_, ?_, ?_, ?_, ?_, ?_⟩
  · exact decodeBlock_map _ _ _
      (fun m hm => ui_spec_roundtrip m (hui m hm))
  · exact decodeBlock_map _ _ _
      (fun m hm => api_spec_roundtrip m (hapi m hm))
  · exact decodeBlock_map _ _ _
      (fun m hm => llm_prompt_roundtrip m (hllm m hm))
  · exact decodeBlock_map _ _ _
      (fun m hm => db_schema_roundtrip m (hdbf m hm))
  · exact decodeBlock_map _ _ _
      (fun m hm => tech_stack_roundtrip m (htech m hm))
  · exact decodeBlock_map _ _ _
      (fun m hm => traceability_roundtrip m (htr m hm))
  · exact decodeBlock_map _ _ _
      (fun m hm => agent_arch_roundtrip m (harch m hm))
  · exact decodeBlock_map _ _ _
      (fun m hm => agent_config_roundtrip m (hconf m hm))
  · exact decodeBlock_map _ _ _
      (fun m hm => agent_task_roundtrip m (htask m hm))

/-- Distribute getD over an if-guarded optional list. -/
theorem getD_ite_none {α : Type} (c : Prop) [Decidable c] (x : List α) :
    (if c then none else some x).getD ([] : List α) =
      if c then [] else x := by
  by_cases h : c <;> simp [h]

/-! ### The claims -/

/-- Claim C1: for every project aggregate whose record collections contain
only records satisfying their kind field constraints, saving the aggregate
with create_project and then loading it by the returned id with get_project
yields an aggregate whose overview fields and every record in every
collection are unchanged: all fields round-trip through save then load. -/
theorem c1_save_load_roundtrip (db : Database) (p : BRDProjectModel)
    (now pid : String) (db2 : Database) (hA : AllValid p)
    (hc : create_project db p now = some (pid, db2)) :
    ∃ q, get_project db2 pid = .ok q ∧ q.overview = p.overview ∧
      q.ui_specifications = p.ui_specifications ∧
      q.api_specifications = p.api_specifications ∧
      q.llm_prompts = p.llm_prompts ∧
      q.database_schema = p.database_schema ∧
      q.tech_stack = p.tech_stack ∧
      q.traceability_matrix = p.traceability_matrix ∧
      q.agent_architectures = p.agent_architectures ∧
      q.agent_configurations = p.agent_configurations ∧
      q.agent_tasks = p.agent_tasks :=
  ⟨loadedOf pid p, get_after_create db p now pid db2 hA hc, rfl, rfl, rfl,
   rfl, rfl, rfl, rfl, rfl, rfl, rfl⟩

/-- Witness for C1: a concrete fully populated valid aggregate saved into an
empty store and loaded back by the returned id. -/
theorem c1_save_load_roundtrip_witness :
    ∃ q, get_project sampleDb2 "proj-20251001120000" = .ok q ∧
      q.overview = sampleProject.overview ∧
      q.ui_specifications = sampleProject.ui_specifications ∧
      q.api_specifications = sampleProject.api_specifications ∧
      q.llm_prompts = sampleProject.llm_prompts ∧
      q.database_schema = sampleProject.database_schema ∧
      q.tech_stack = sampleProject.tech_stack ∧
      q.traceability_matrix = sampleProject.traceability_matrix ∧
      q.agent_architectures = sampleProject.agent_architectures ∧
      q.agent_configurations = sampleProject.agent_configurations ∧
      q.agent_tasks = sampleProject.agent_tasks :=
  c1_save_load_roundtrip (.current ⟨[]⟩) sampleProject "20251001120000"
    "proj-20251001120000" sampleDb2 (by decide) rfl

/-- Claim C2: for a stored row in which exactly one record-kind collection
block (position j among the nine) is malformed, meaning its block does not
decode as a list of schema-satisfying records, while every other block
decodes to its stored records, get_project returns an aggregate in which
that one collection is empty and every other collection holds exactly the
stored records, and the load does not raise. -/
theorem c2_block_isolation (t : ProjectsTable) (r : StoredRow)
    (ov : OverviewModel) (j : Fin 9)
    (us : List UISpecificationModel) (vs : List APISpecificationModel)
    (ls : List LLMPromptModel) (ds : List DatabaseSchemaModel)
    (ks : List TechStackModel) (ws : List TraceabilityModel)
    (gs : List AgentArchitectureModel) (cs : List AgentConfigurationModel)
    (zs : List AgentTaskModel)
    (hfind : findRow t r.project_id = some r)
    (hov : decodeOverview r.overview_json = some ov)
    (h0 : blockDec UISpecificationModel.ofJson r.ui_specs_json =
      if j.val = 0 then none else some us)
    (h1 : blockDec APISpecificationModel.ofJson r.api_specs_json =
      if j.val = 1 then none else some vs)
    (h2 : blockDec LLMPromptModel.ofJson r.llm_prompts_json =
      if j.val = 2 then none else some ls)
    (h3 : blockDec DatabaseSchemaModel.ofJson r.db_schema_json =
      if j.val = 3 then none else some ds)
    (h4 : blockDec TechStackModel.ofJson r.tech_stack_json =
      if j.val = 4 then none else some ks)
    (h5 : blockDec TraceabilityModel.ofJson r.traceability_json =
      if j.val = 5 then none else some ws)
    (h6 : blockDec AgentArchitectureModel.ofJson r.agent_architectures_json =
      if j.val = 6 then none else some gs)
    (h7 : blockDec AgentConfigurationModel.ofJson r.agent_configurations_json =
      if j.val = 7 then none else some cs)
    (h8 : blockDec AgentTaskModel.ofJson r.agent_tasks_json =
      if j.val = 8 then none else some zs) :
    get_project (.current t) r.project_id =
      .ok { project_id := some r.project_id
            template_type := effectiveTemplate r.template_type
            overview := ov
            ui_specifications := if j.val = 0 then [] else us
            api_specifications := if j.val = 1 then [] else vs
            llm_prompts := if j.val = 2 then [] else ls
            database_schema := if j.val = 3 then [] else ds
            tech_stack := if j.val = 4 then [] else ks
            traceability_matrix := if j.val = 5 then [] else ws
            agent_architectures := if j.val = 6 then [] else gs
            agent_configurations := if j.val = 7 then [] else cs
            agent_tasks := if j.val = 8 then [] else zs } := by
  unfold get_project
  rw [show initTable (.current t) = t from rfl, hfind]
  dsimp only
  rw [hov]
  dsimp only
  simp only [decodeBlock, h0, h1, h2, h3, h4, h5, h6, h7, h8, getD_ite_none]

/-- Witness for C2: a concrete row serialized from a valid aggregate whose
UI block alone is corrupt text; the load succeeds with the UI collection
empty and every other collection intact. -/
theorem c2_block_isolation_witness :
    get_project (.current ⟨[c2Row]⟩) "proj-0001" =
      .ok { project_id := some "proj-0001"
            template_type := "Agentic"
            overview := sampleOverview
            ui_specifications := []
            api_specifications := [sampleAPISpec]
            llm_prompts := [sampleLLMPrompt]
            database_schema := [sampleDbField]
            tech_stack := [sampleTech]
            traceability_matrix := [sampleTrace]
            agent_architectures := [sampleArch]
            agent_configurations := [sampleConfig]
            agent_tasks := [sampleTask] } :=
  (c2_block_isolation ⟨[c2Row]⟩ c2Row sampleOverview ⟨0, by decide⟩
    [] [sampleAPISpec] [sampleLLMPrompt] [sampleDbField] [sampleTech]
    [sampleTrace] [sampleArch] [sampleConfig] [sampleTask]
    (by decide) (by decide) (by decide) (by decide) (by decide) (by decide)
    (by decide) (by decide) (by decide) (by decide) (by decide)).trans
    (by decide)

/-- Claim C3: a stored row created before the newer columns existed loads,
after store initialization, as an aggregate with template kind Normal and
empty agent collections, without raising; and the column-adding migration in
init_database is idempotent: running it when the columns already exist
changes nothing. -/
theorem c3_missing_columns (rows : List OldRow) (r : OldRow)
    (ov : OverviewModel)
    (hfind : findRow ⟨rows.map migrateRow⟩ r.project_id =
      some (migrateRow r))
    (hov : decodeOverview r.overview_json = some ov) :
    (∃ q, get_project (.old rows) r.project_id = .ok q ∧
      q.template_type = "Normal" ∧ q.overview = ov ∧
      q.agent_architectures = [] ∧ q.agent_configurations = [] ∧
      q.agent_tasks = []) ∧
    (∀ db : Database, init_database (init_database db) = init_database db) ∧
    (∀ t : ProjectsTable, init_database (.current t) = .current t) := by
  refine ⟨?_, fun db => by cases db <;> rfl, fun t => rfl⟩
  have hget : get_project (.old rows) r.project_id = .ok
      { project_id := some r.project_id
        template_type := "Normal"
        overview := ov
        ui_specifications :=
          decodeBlock UISpecificationModel.ofJson r.ui_specs_json
        api_specifications :=
          decodeBlock APISpecificationModel.ofJson r.api_specs_json
        llm_prompts := decodeBlock LLMPromptModel.ofJson r.llm_prompts_json
        database_schema :=
          decodeBlock DatabaseSchemaModel.ofJson r.db_schema_json
        tech_stack := decodeBlock TechStackModel.ofJson r.tech_stack_json
        traceability_matrix :=
          decodeBlock TraceabilityModel.ofJson r.traceability_json
        agent_architectures := []
        agent_configurations := []
        agent_tasks := [] } := by
    unfold get_project
    rw [show initTable (.old rows) = ⟨rows.map migrateRow⟩ from rfl, hfind]
    dsimp only [migrateRow]
    rw [hov]
    dsimp only
    simp [effectiveTemplate, decodeBlock, blockDec, parseList]
  exact ⟨_, hget, rfl, rfl, rfl, rfl, rfl⟩

/-- Witness for C3: a concrete pre-migration row loads with template kind
Normal and empty agent collections, and the migration idempotence holds. -/
theorem c3_missing_columns_witness :
    (∃ q, get_project (.old [c3OldRow]) "proj-legacy" = .ok q ∧
      q.template_type = "Normal" ∧ q.overview = sampleOverview ∧
      q.agent_architectures = [] ∧ q.agent_configurations = [] ∧
      q.agent_tasks = []) ∧
    (∀ db : Database, init_database (init_database db) = init_database db) ∧
    (∀ t : ProjectsTable, init_database (.current t) = .current t) :=
  c3_missing_columns [c3OldRow] c3OldRow sampleOverview (by decide)
    (by decide)

/-- Claim C10: the per-block corruption tolerance does not cover the
overview block: for every stored row whose overview block is malformed or
violates the overview schema, get_project raises, rather than returning an
aggregate with a defaulted overview. -/
theorem c10_overview_not_isolated (t : ProjectsTable) (r : StoredRow)
    (hfind : findRow t r.project_id = some r)
    (hov : decodeOverview r.overview_json = none) :
    get_project (.current t) r.project_id = .error := by
  unfold get_project
  rw [show initTable (.current t) = t from rfl, hfind]
  dsimp only
  rw [hov]

/-- Witness for C10: a concrete row with a corrupt overview block makes
get_project raise. -/
theorem c10_overview_not_isolated_witness :
    get_project (.current ⟨[c10Row]⟩) "proj-0010" = .error :=
  c10_overview_not_isolated ⟨[c10Row]⟩ c10Row (by decide) (by decide)

/-- A violated required field contributes its own name to the error list. -/
theorem viol_mem_reqErr (o : JObj) (k : String) (ck : JVal → Bool)
    (h : violAt o k true ck = true) : k ∈ reqErr o k ck := by
  unfold violAt at h
  unfold reqErr
  cases hg : getF o k with
  | none => simp
  | some v =>
    rw [hg] at h
    simp only [Bool.not_eq_true'] at h
    simp [h]

/-- A violated defaulted field contributes its own name to the error
list. -/
theorem viol_mem_optErr (o : JObj) (k : String) (ck : JVal → Bool)
    (h : violAt o k false ck = true) : k ∈ optErr o k ck := by
  unfold violAt at h
  unfold optErr
  cases hg : getF o k with
  | none => rw [hg] at h; exact absurd h (by simp)
  | some v =>
    rw [hg] at h
    simp only [Bool.not_eq_true'] at h
    simp [h]

/-- Every violated field of an LLMPromptModel input appears in the
collected error list. -/
theorem llm_prompt_viol_mem (o : JObj) (f : String)
    (h : LLMPromptModel.fieldViolated o f = true) :
    f ∈ LLMPromptModel.errorsOf o := by
  unfold LLMPromptModel.fieldViolated at h
  split_ifs at h with e1 e2 e3 e4 e5 e6 e7
  · subst e1
    have hm := viol_mem_reqErr o "prompt_id" (strOk 1 50) h
    simp only [LLMPromptModel.errorsOf, List.mem_append]; tauto
  · subst e2
    have hm := viol_mem_reqErr o "use_case" (strOk 1 255) h
    simp only [LLMPromptModel.errorsOf, List.mem_append]; tauto
  · subst e3
    have hm := viol_mem_reqErr o "prompt_template" (strOk 10 5000) h
    simp only [LLMPromptModel.errorsOf, List.mem_append]; tauto
  · subst e4
    have hm := viol_mem_optErr o "input_variables" (strOk 0 1000) h
    simp only [LLMPromptModel.errorsOf, List.mem_append]; tauto
  · subst e5
    have hm := viol_mem_optErr o "expected_output" (strOk 0 1000) h
    simp only [LLMPromptModel.errorsOf, List.mem_append]; tauto
  · subst e6
    have hm := viol_mem_optErr o "model_name" strAny h
    simp only [LLMPromptModel.errorsOf, List.mem_append]; tauto
  · subst e7
    have hm := viol_mem_optErr o "temperature" (numOk 0 2) h
    simp only [LLMPromptModel.errorsOf, List.mem_append]; tauto

/-- Every violated field of an OverviewModel input appears in the collected
error list. -/
theorem overview_viol_mem (o : JObj) (f : String)
    (h : OverviewModel.fieldViolated o f = true) :
    f ∈ OverviewModel.errorsOf o := by
  unfold OverviewModel.fieldViolated at h
  split_ifs at h with e1 e2 e3 e4 e5 e6 e7
  · subst e1
    have hm := viol_mem_reqErr o "project_name" (strOk 1 255) h
    simp only [OverviewModel.errorsOf, List.mem_append]; tauto
  · subst e2
    have hm := viol_mem_reqErr o "project_description" (strOk 10 2000) h
    simp only [OverviewModel.errorsOf, List.mem_append]; tauto
  · subst e3
    have hm := viol_mem_reqErr o "business_goal" (strOk 10 2000) h
    simp only [OverviewModel.errorsOf, List.mem_append]; tauto
  · subst e4
    have hm := viol_mem_optErr o "document_version" strAny h
    simp only [OverviewModel.errorsOf, List.mem_append]; tauto
  · subst e5
    have hm := viol_mem_optErr o "prepared_by" (strOk 0 255) h
    simp only [OverviewModel.errorsOf, List.mem_append]; tauto
  · subst e6
    have hm := viol_mem_optErr o "approved_by" (strOk 0 255) h
    simp only [OverviewModel.errorsOf, List.mem_append]; tauto
  · subst e7
    have hm := viol_mem_optErr o "target_release_date" optStrOk h
    simp only [OverviewModel.errorsOf, List.mem_append]; tauto

/-- Claim C4: an input to a record constructor that violates more than one
field-level constraint fails with a validation error that names every
violated field, not only the first violation encountered; stated for the
two cited kinds, LLMPromptModel and OverviewModel. -/
theorem c4_all_violations_reported :
    (∀ (o : JObj) (f g : String), f ≠ g →
      LLMPromptModel.fieldViolated o f = true →
      LLMPromptModel.fieldViolated o g = true →
      ∃ E, LLMPromptModel.ofJson o = .error E ∧
        ∀ k, LLMPromptModel.fieldViolated o k = true → k ∈ E) ∧
    (∀ (o : JObj) (f g : String), f ≠ g →
      OverviewModel.fieldViolated o f = true →
      OverviewModel.fieldViolated o g = true →
      ∃ E, OverviewModel.ofJson o = .error E ∧
        ∀ k, OverviewModel.fieldViolated o k = true → k ∈ E) := by
  constructor
  · intro o f _g _hfg hf _hg
    have hne : LLMPromptModel.errorsOf o ≠ [] :=
      List.ne_nil_of_mem (llm_prompt_viol_mem o f hf)
    refine ⟨LLMPromptModel.errorsOf o, ?_,
      fun k hk => llm_prompt_viol_mem o k hk⟩
    unfold LLMPromptModel.ofJson
    rw [if_neg hne]
  · intro o f _g _hfg hf _hg
    have hne : OverviewModel.errorsOf o ≠ [] :=
      List.ne_nil_of_mem (overview_viol_mem o f hf)
    refine ⟨OverviewModel.errorsOf o, ?_,
      fun k hk => overview_viol_mem o k hk⟩
    unfold OverviewModel.ofJson
    rw [if_neg hne]

/-- Witness for C4: a concrete LLM prompt input with an empty use case, a
too-short template and an out-of-range temperature fails naming all of
them. -/
theorem c4_all_violations_reported_witness :
    ("use_case" : String) ≠ "temperature" ∧
    LLMPromptModel.fieldViolated c4Input "use_case" = true ∧
    LLMPromptModel.fieldViolated c4Input "temperature" = true ∧
    LLMPromptModel.fieldViolated c4Input "prompt_template" = true ∧
    ∃ E, LLMPromptModel.ofJson c4Input = .error E ∧
      ∀ k, LLMPromptModel.fieldViolated c4Input k = true → k ∈ E :=
  ⟨by decide, by decide, by decide, by decide,
    c4_all_violations_reported.1 c4Input "use_case" "temperature" (by decide)
      (by decide) (by decide)⟩

/-- Claim C7: a suggestion request made while the text-generation service is
unreachable, or while it times out, yields exactly one error chunk, chosen
by the failure kind, with the two kinds distinguishable, rather than a
partial result; the gateway makes a single request, so no retry occurs. -/
theorem c7_gateway_single_error :
    streamOllama .connError = [.s connectErrMsg] ∧
    streamOllama .timeout = [.s timeoutErrMsg] ∧
    (streamOllama .connError).length = 1 ∧
    (streamOllama .timeout).length = 1 ∧
    connectErrMsg ≠ timeoutErrMsg :=
  ⟨rfl, rfl, rfl, rfl, by decide⟩

/-- Claim C5: export produces the seven document sheets in the fixed order,
always present, followed by the three agent sheets, each present exactly
when its collection is non-empty; every sheet carries a header row even when
its collection is empty. -/
theorem c5_sheet_order (p : BRDProjectModel) (now : String) :
    (export_to_excel p now).map Sheet.name =
      ["1. Overview", "2. UI Specification", "3. API Specification",
       "4. LLM Prompts", "5. Database Schema", "6. Tech Stack & VC",
       "7. Traceability Matrix"] ++
      (if p.agent_architectures = [] then []
        else ["8. Agent Architecture"]) ++
      (if p.agent_configurations = [] then []
        else ["9. Agent Configuration"]) ++
      (if p.agent_tasks = [] then [] else ["10. Agent Tasks"]) ∧
    ∀ s ∈ export_to_excel p now, s.header ≠ [] := by
  constructor
  · unfold export_to_excel
    by_cases h1 : p.agent_architectures = [] <;>
      by_cases h2 : p.agent_configurations = [] <;>
        by_cases h3 : p.agent_tasks = [] <;>
          simp [h1, h2, h3, overviewSheet, uiSheet, apiSheet, llmSheet,
            dbSheet, techSheet, traceSheet, archSheet, configSheet,
            taskSheet]
  · intro s hs
    unfold export_to_excel at hs
    rcases List.mem_append.mp hs with h | h
    · rcases List.mem_append.mp h with h | h
      · rcases List.mem_append.mp h with h | h
        · simp only [List.mem_cons, List.not_mem_nil, or_false] at h
          rcases h with h | h | h | h | h | h | h <;> subst h <;>
            simp [overviewSheet, uiSheet, apiSheet, llmSheet, dbSheet,
              techSheet, traceSheet]
        · by_cases ha : p.agent_architectures = []
          · simp [ha] at h
          · simp only [ha, if_false, List.mem_singleton] at h
            subst h; simp [archSheet]
      · by_cases hb : p.agent_configurations = []
        · simp [hb] at h
        · simp only [hb, if_false, List.mem_singleton] at h
          subst h; simp [configSheet]
    · by_cases hc : p.agent_tasks = []
      · simp [hc] at h
      · simp only [hc, if_false, List.mem_singleton] at h
        subst h; simp [taskSheet]

/-- Counterexample to claim C6 as stated: the app saves an aggregate that
carries an id through update_project; when that id is absent from the
store, nothing is inserted — the store stays empty and loading the id
reports not-found, contradicting insert-if-unseen. -/
theorem c6_counterexample :
    staleProject.project_id = some "proj-ghost" ∧
    findRow (initTable (.current ⟨[]⟩)) "proj-ghost" = none ∧
    save_project (.current ⟨[]⟩) staleProject "20250101000000" =
      some ("proj-ghost", .current ⟨[]⟩) ∧
    get_project (.current ⟨[]⟩) "proj-ghost" = .notFound :=
  ⟨rfl, rfl, rfl, rfl⟩

/-- Claim C6 as amended: saving a fresh aggregate, which carries no id,
goes through create_project and inserts a new row under the returned
generated id; saving an aggregate whose id is present goes through
update_project and fully overwrites that row (every column except the id
and created_at); in both cases a subsequent load by the returned id yields
the saved fields. Saving an aggregate carrying an id that is absent from
the store is a silent no-op rather than an insert. -/
theorem c6_upsert_amended :
    (∀ (db : Database) (p : BRDProjectModel) (now pid : String)
      (db2 : Database), p.project_id = none → AllValid p →
      save_project db p now = some (pid, db2) →
      ∃ q, get_project db2 pid = .ok q ∧ q.overview = p.overview ∧
        q.ui_specifications = p.ui_specifications ∧
        q.api_specifications = p.api_specifications ∧
        q.llm_prompts = p.llm_prompts ∧
        q.database_schema = p.database_schema ∧
        q.tech_stack = p.tech_stack ∧
        q.traceability_matrix = p.traceability_matrix ∧
        q.agent_architectures = p.agent_architectures ∧
        q.agent_configurations = p.agent_configurations ∧
        q.agent_tasks = p.agent_tasks) ∧
    (∀ (db : Database) (p : BRDProjectModel) (now pid : String)
      (r : StoredRow), p.project_id = some pid → AllValid p →
      findRow (initTable db) pid = some r →
      save_project db p now = some (pid, update_project db p now) ∧
      update_project db p now = .current ⟨(initTable db).rows.map (fun s =>
        if s.project_id = pid then rowOf s.project_id p s.created_at now
        else s)⟩ ∧
      get_project (update_project db p now) pid = .ok (loadedOf pid p)) ∧
    (∀ (db : Database) (p : BRDProjectModel) (now pid : String),
      p.project_id = some pid → findRow (initTable db) pid = none →
      update_project db p now = init_database db) := by
  refine ⟨?_, ?_, ?_⟩
  · intro db p now pid db2 hid hA hs
    unfold save_project at hs
    rw [hid] at hs
    exact ⟨loadedOf pid p, get_after_create db p now pid db2 hA hs, rfl,
      rfl, rfl, rfl, rfl, rfl, rfl, rfl, rfl, rfl⟩
  · intro db p now pid r hid hA hfind
    refine ⟨?_, ?_, get_after_update db p now pid r hA hid hfind⟩
    · unfold save_project
      rw [hid]
    · unfold update_project
      rw [hid]
  · intro db p now pid hid hfind
    have hnone : ∀ s ∈ (initTable db).rows, ¬s.project_id = pid := by
      simpa [findRow, List.find?_eq_none] using hfind
    have hmap : (initTable db).rows.map (fun s =>
        if s.project_id = pid then rowOf s.project_id p s.created_at now
        else s) = (initTable db).rows := by
      calc (initTable db).rows.map (fun s =>
            if s.project_id = pid then rowOf s.project_id p s.created_at now
            else s)
          = (initTable db).rows.map id := by
            apply List.map_congr_left
            intro s hsm
            simp [hnone s hsm]
        _ = (initTable db).rows := List.map_id _
    unfold update_project
    rw [hid]
    dsimp only
    rw [hmap]
    rfl

/-- Witness for C6 as amended: the fresh-save case applied to the concrete
sample aggregate and an empty store, and the stale-id no-op case applied to
an aggregate whose id no store row carries. -/
theorem c6_upsert_amended_witness :
    (∃ q, get_project sampleDb2 "proj-20251001120000" = .ok q ∧
      q.overview = sampleProject.overview ∧
      q.ui_specifications = sampleProject.ui_specifications ∧
      q.api_specifications = sampleProject.api_specifications ∧
      q.llm_prompts = sampleProject.llm_prompts ∧
      q.database_schema = sampleProject.database_schema ∧
      q.tech_stack = sampleProject.tech_stack ∧
      q.traceability_matrix = sampleProject.traceability_matrix ∧
      q.agent_architectures = sampleProject.agent_architectures ∧
      q.agent_configurations = sampleProject.agent_configurations ∧
      q.agent_tasks = sampleProject.agent_tasks) ∧
    update_project (.current ⟨[]⟩) staleProject "20250101000000" =
      init_database (.current ⟨[]⟩) :=
  ⟨c6_upsert_amended.1 (.current ⟨[]⟩) sampleProject "20251001120000"
      "proj-20251001120000" sampleDb2 rfl (by decide) rfl,
    c6_upsert_amended.2.2 (.current ⟨[]⟩) staleProject "20250101000000"
      "proj-ghost" rfl rfl⟩

/-- Counterexample to claim C8 as stated: an API specification constructs
successfully with both payload descriptions absent (defaulting to empty)
and an HTTP method outside the GET/POST/PUT/DELETE/PATCH set, so neither
are the payloads required nor is the method checked against the enum. -/
theorem c8_counterexample :
    APISpecificationModel.ofJson c8Input =
      .ok ⟨"API-001", "Teleport Users", "TELEPORT", "/api/v1/teleport",
        "", "", "", "Internal"⟩ ∧
    "TELEPORT" ∉ (["GET", "POST", "PUT", "DELETE", "PATCH"] :
      List String) := by
  refine ⟨rfl, by decide⟩

/-- Claim C8 as amended: id, name and endpoint path are required non-empty
(up to their max lengths); the HTTP method is required but any string is
accepted, with no enum check; the request and response payload descriptions
are optional and default to the empty string. Construction with an empty
name, or an empty endpoint, fails naming that field. -/
theorem c8_required_fields_amended :
    (∀ i n m e : String,
      1 ≤ i.length → i.length ≤ 50 →
      1 ≤ n.length → n.length ≤ 255 →
      1 ≤ e.length → e.length ≤ 255 →
      APISpecificationModel.ofJson (mkApiInput i n m e) =
        .ok ⟨i, n, m, e, "", "", "", "Internal"⟩) ∧
    (∀ o : JObj, getF o "api_name" = some (.s "") →
      ∃ E, APISpecificationModel.ofJson o = .error E ∧ "api_name" ∈ E) ∧
    (∀ o : JObj, getF o "endpoint" = some (.s "") →
      ∃ E, APISpecificationModel.ofJson o = .error E ∧ "endpoint" ∈ E) := by
  refine ⟨?_, ?_, ?_⟩
  · intro i n m e hi1 hi2 hn1 hn2 he1 he2
    have herr : APISpecificationModel.errorsOf (mkApiInput i n m e) = [] := by
      simp [APISpecificationModel.errorsOf, mkApiInput, reqErr, optErr,
        getF, List.find?, strOk, strAny, hi1, hi2, hn1, hn2, he1, he2]
    unfold APISpecificationModel.ofJson
    rw [if_pos herr]
    simp [mkApiInput, readStr, getF, List.find?]
  · intro o hg
    have hm : "api_name" ∈ APISpecificationModel.errorsOf o := by
      have hr : "api_name" ∈ reqErr o "api_name" (strOk 1 255) := by
        simp [reqErr, hg, strOk]
      simp only [APISpecificationModel.errorsOf, List.mem_append]
      tauto
    refine ⟨APISpecificationModel.errorsOf o, ?_, hm⟩
    unfold APISpecificationModel.ofJson
    rw [if_neg (List.ne_nil_of_mem hm)]
  · intro o hg
    have hm : "endpoint" ∈ APISpecificationModel.errorsOf o := by
      have hr : "endpoint" ∈ reqErr o "endpoint" (strOk 1 255) := by
        simp [reqErr, hg, strOk]
      simp only [APISpecificationModel.errorsOf, List.mem_append]
      tauto
    refine ⟨APISpecificationModel.errorsOf o, ?_, hm⟩
    unfold APISpecificationModel.ofJson
    rw [if_neg (List.ne_nil_of_mem hm)]

/-- Witness for C8 as amended: a concrete construction with a non-enum
method and no payloads succeeds, and a concrete empty name fails naming
api_name. -/
theorem c8_required_fields_amended_witness :
    APISpecificationModel.ofJson (mkApiInput "API-001" "Users API"
      "TELEPORT" "/x") =
      .ok ⟨"API-001", "Users API", "TELEPORT", "/x", "", "", "",
        "Internal"⟩ ∧
    ∃ E, APISpecificationModel.ofJson [("api_name", JVal.s "")] =
      .error E ∧ "api_name" ∈ E :=
  ⟨c8_required_fields_amended.1 "API-001" "Users API" "TELEPORT" "/x"
      (by decide) (by decide) (by decide) (by decide) (by decide)
      (by decide),
    c8_required_fields_amended.2.1 [("api_name", JVal.s "")] rfl⟩

/-- Counterexample to claim C9 as stated: an LLM prompt record constructs
successfully with a model name outside the fixed AVAILABLE_MODELS set, so
construction does not require membership in that set. -/
theorem c9_counterexample :
    LLMPromptModel.ofJson c9Input =
      .ok ⟨"LLM-001", "Summarization", "Summarize the following text",
        "", "", "gpt-99x", 1⟩ ∧
    "gpt-99x" ∉ AVAILABLE_MODELS := by
  refine ⟨rfl, by decide⟩

/-- Claim C9 as amended: construction succeeds only when the temperature
lies in the inclusive range 0.0 to 2.0 — an out-of-range temperature fails
naming the temperature field — but the model name is unconstrained at
construction: any string is accepted, and the fixed set AVAILABLE_MODELS
only feeds the UI model picker. -/
theorem c9_temperature_amended :
    (∀ (mn : String) (t : Rat), 0 ≤ t → t ≤ 2 →
      LLMPromptModel.ofJson (mkLLMInput mn t) =
        .ok ⟨"LLM-001", "Summarization", "Summarize the following text",
          "", "", mn, t⟩) ∧
    (∀ (o : JObj) (t : Rat), getF o "temperature" = some (.num t) →
      ¬(0 ≤ t ∧ t ≤ 2) →
      ∃ E, LLMPromptModel.ofJson o = .error E ∧ "temperature" ∈ E) := by
  constructor
  · intro mn t h0 h2
    have herr : LLMPromptModel.errorsOf (mkLLMInput mn t) = [] := by
      simp [LLMPromptModel.errorsOf, mkLLMInput, reqErr, optErr, getF,
        List.find?, strOk, strAny, numOk, h0, h2]
      decide
    unfold LLMPromptModel.ofJson
    rw [if_pos herr]
    simp [mkLLMInput, readStr, readNum, getF, List.find?]
  · intro o t hg hnot
    have hno : numOk 0 2 (.num t) = false := by
      unfold numOk
      rcases not_and_or.mp hnot with h | h <;> simp [h]
    have hm : "temperature" ∈ LLMPromptModel.errorsOf o := by
      have hr : "temperature" ∈ optErr o "temperature" (numOk 0 2) := by
        simp [optErr, hg, hno]
      simp only [LLMPromptModel.errorsOf, List.mem_append]
      tauto
    refine ⟨LLMPromptModel.errorsOf o, ?_, hm⟩
    unfold LLMPromptModel.ofJson
    rw [if_neg (List.ne_nil_of_mem hm)]

/-- Witness for C9 as amended: a concrete arbitrary model name with an
in-range temperature constructs, and a concrete out-of-range temperature
fails naming the temperature field. -/
theorem c9_temperature_amended_witness :
    LLMPromptModel.ofJson (mkLLMInput "any-model-name" 1) =
      .ok ⟨"LLM-001", "Summarization", "Summarize the following text",
        "", "", "any-model-name", 1⟩ ∧
    ∃ E, LLMPromptModel.ofJson [("temperature", JVal.num 3)] = .error E ∧
      "temperature" ∈ E :=
  ⟨c9_temperature_amended.1 "any-model-name" 1 (by decide) (by decide),
    c9_temperature_amended.2 [("temperature", JVal.num 3)] 3 rfl
      (by decide)⟩

end BRD
